import Mathlib

/-!
# Light controller: shallow embedding and verification

A shallow embedding of the light-controller program (src/main.cpp): the
start-time validator guard, the On/Off state machine with its actions, the
periodic schedule-evaluation task, the digital input watcher and the relevant
parts of the main loop, together with theorems about them.

C++ std::string values are modelled as their character lists (List Char); the
small nonnegative int/int64_t quantities (minutes of day, durations, counters)
are modelled as Nat, since no value involved ever approaches the machine width
and none is ever negative.
-/

namespace LightController

/-- ctrl::TIMESLOT. -/
inductive TIMESLOT
  | LONG
  | SHORT
deriving DecidableEq, Repr

/-- ctrl::long_on_time = "18:00". -/
def long_on_time : List Char := "18:00".data

/-- ctrl::short_on_time = "12:00". -/
def short_on_time : List Char := "12:00".data

/-- The character set "0123456789" used by the guard's is_number lambda. -/
def digit_chars : List Char := "0123456789".data

/-- The guard's is_number lambda: find_first_not_of("0123456789") == npos,
i.e. every character of the string is a decimal digit. -/
def is_number (s : List Char) : Bool :=
  s.all (fun c => digit_chars.contains c)

/-- std::string::substr(pos, len): the (at most) len characters starting at
position pos. -/
def substr (s : List Char) (pos len : Nat) : List Char :=
  (s.drop pos).take len

/-- std::stoi applied to an all-digit string: its decimal value. (In the
program stoi is only ever applied to strings that passed is_number, where it
returns exactly this nonnegative value, so Nat suffices and the source's
`stoi(...) < 0` comparisons can never fire.) -/
def stoi (s : List Char) : Nat :=
  s.foldl (fun a c => a * 10 + (c.toNat - 48)) 0

/-- The validation failures of ctrl::turn_on_guard, one per early-return
branch (each branch prints a distinct diagnostic before returning false). -/
inductive ValidationError
  | TooShort
  | MissingSeparator
  | NonNumeric
  | HourOutOfRange
  | MinuteOutOfRange
deriving DecidableEq, Repr

deriving instance DecidableEq for Except

/-- ctrl::turn_on_guard. The source returns bool, printing a distinct
diagnostic on each false branch; here each false branch is encoded as the
corresponding ValidationError, and the true branch carries the accepted
time-of-day hour*60+minute that ctrl::on_action then computes from the same
substrings with the same stoi calls. -/
def turn_on_guard (time_on : List Char) : Except ValidationError Nat :=
  if time_on.length < 5 then
    .error .TooShort
  else if ¬ time_on.contains ':' ∧ ¬ time_on.contains '.' then
    .error .MissingSeparator
  else
    let on_hour := substr time_on 0 2
    let on_minute := substr time_on 3 2
    if ¬ is_number on_hour ∨ ¬ is_number on_minute then
      .error .NonNumeric
    else if 24 ≤ stoi on_hour then
      .error .HourOutOfRange
    else if 60 ≤ stoi on_minute then
      .error .MinuteOutOfRange
    else
      .ok (stoi on_hour * 60 + stoi on_minute)

/-- The two control states of ctrl::fsm (classes ctrl::off and ctrl::on);
state<off> is initial. -/
inductive CtrlState
  | off
  | on
deriving DecidableEq, Repr

/-- The mutable controller state: the current fsm state together with the
ctrl:: namespace state variables (active_timeslot, start_time_minutes,
task_running), the commanded light output level, and two ghost counters
instrumenting exactly the source lines that spawn (std::thread in on_action)
and join (task_thread.join() in off_action) the background task thread. -/
structure Config where
  st : CtrlState
  active_timeslot : TIMESLOT
  start_time_minutes : Nat
  task_running : Bool
  light : Bool
  spawn_count : Nat
  join_count : Nat
deriving DecidableEq, Repr

/-- The events of ctrl::fsm. -/
inductive Event
  | turn_on (time_on : List Char)
  | turn_off
  | change_on_time

/-- ctrl::on_action: start the task thread unless task_running already holds
(setting task_running and, as instrumentation, bumping spawn_count), then
record start_time_minutes = hour*60 + minute parsed from the event string. -/
def on_action (time_on : List Char) (c : Config) : Config :=
  let c1 :=
    if c.task_running then c
    else { c with task_running := true, spawn_count := c.spawn_count + 1 }
  let on_hour := stoi (substr time_on 0 2)
  let on_minute := stoi (substr time_on 3 2)
  { c1 with start_time_minutes := on_hour * 60 + on_minute }

/-- ctrl::off_action: if task_running, clear it and join the thread (bumping
the ghost join_count), then drive the light output off. -/
def off_action (c : Config) : Config :=
  let c1 :=
    if c.task_running then
      { c with task_running := false, join_count := c.join_count + 1 }
    else c
  { c1 with light := false }

/-- ctrl::change_on_time_action: flip active_timeslot between SHORT and LONG. -/
def change_on_time_action (c : Config) : Config :=
  { c with active_timeslot :=
      if c.active_timeslot = TIMESLOT.SHORT then TIMESLOT.LONG else TIMESLOT.SHORT }

/-- The transition table of ctrl::fsm under boost::sml semantics: a guarded
transition whose guard rejects leaves the machine unchanged, and an event with
no matching row in the current state is ignored. -/
def step (c : Config) (e : Event) : Config :=
  match c.st, e with
  | CtrlState.off, Event.turn_on t =>
      if (turn_on_guard t).isOk then { on_action t c with st := CtrlState.on } else c
  | CtrlState.on, Event.turn_off =>
      { off_action c with st := CtrlState.off }
  | CtrlState.on, Event.change_on_time =>
      { change_on_time_action c with st := CtrlState.on }
  | _, _ => c

/-- The duration in minutes that ctrl::iterate_task derives from the active
timeslot's profile string: stoi(substr 0 2)*60 + stoi(substr 3 2). -/
def duration_minutes (ts : TIMESLOT) : Nat :=
  let dur_time_s := match ts with
    | TIMESLOT.LONG => long_on_time
    | TIMESLOT.SHORT => short_on_time
  stoi (substr dur_time_s 0 2) * 60 + stoi (substr dur_time_s 3 2)

/-- The schedule decision made by ctrl::iterate_task, with the duration kept
as a parameter (the source fixes it to duration_minutes of the active
timeslot): stop = (start + duration) mod 1440; if stop < start the output is
driven by start < now, otherwise by now < stop. Returns the level the light
output is commanded to. -/
def iterate_task_decision (start_time duration_time now_time : Nat) : Bool :=
  let stop_time := (start_time + duration_time) % (24 * 60)
  let stop_next_day := stop_time < start_time
  if stop_next_day then
    decide (start_time < now_time)
  else
    decide (now_time < stop_time)

/-- ctrl::iterate_task, with the wall-clock read (localtime hour*60+min)
passed in as now_time. Returns the level the light output is commanded to. -/
def iterate_task (start_time : Nat) (ts : TIMESLOT) (now_time : Nat) : Bool :=
  iterate_task_decision start_time (duration_minutes ts) now_time

/-- hw::input::toggled, as a function of the freshly read pin level
(is_pressed) and the stored last_value: returns whether they differed
together with the updated last_value. The stored last_value of a watcher is
initialized to false at construction. -/
def toggled (is_pressed last_value : Bool) : Bool × Bool :=
  if last_value ≠ is_pressed then (true, is_pressed) else (false, last_value)

/-- The state touched by the on/off branch of one main-loop iteration: the
controller configuration and the on/off watcher's stored last_value. -/
structure LoopState where
  cfg : Config
  onoff_last : Bool
deriving DecidableEq, Repr

/-- The start/stop-input handling of one main-loop iteration. The pin level
is stable within the iteration. C++ evaluation order: di_onoff::toggled() is
called once in the first if-condition; when that conjunction fails, the
else-if condition calls di_onoff::toggled() a second time against the
already-updated last_value. -/
def loop_onoff (arg1 : List Char) (level : Bool) (s : LoopState) : LoopState :=
  let r1 := toggled level s.onoff_last
  if r1.1 ∧ s.cfg.st = CtrlState.off then
    { cfg := step s.cfg (Event.turn_on arg1), onoff_last := r1.2 }
  else
    let r2 := toggled level r1.2
    if r2.1 ∧ s.cfg.st = CtrlState.on then
      { cfg := step s.cfg Event.turn_off, onoff_last := r2.2 }
    else
      { s with onoff_last := r2.2 }

/-- The controller configuration at program start: fsm initial state off,
active_timeslot = LONG, start_time_minutes zero-initialized, task_running
false, no thread ever spawned or joined, light not driven. -/
def initial_config : Config :=
  { st := CtrlState.off
    active_timeslot := TIMESLOT.LONG
    start_time_minutes := 0
    task_running := false
    light := false
    spawn_count := 0
    join_count := 0 }

/-- Outcome of process startup: either an assert aborted the process, or the
main loop is entered with the given configuration. -/
inductive StartupResult
  | aborted
  | running (c : Config)
deriving DecidableEq, Repr

/-- The startup sequence of main: assert(args.size() == 2), then
sm.process_event(turn_on{args[1]}), then assert(sm.is(sml::state<on>)). A
failed assert aborts the process. -/
def startup (args : List (List Char)) : StartupResult :=
  match args with
  | [_, arg1] =>
    let c := step initial_config (Event.turn_on arg1)
    if c.st = CtrlState.on then StartupResult.running c else StartupResult.aborted
  | _ => StartupResult.aborted

/-- The configurations reachable by the state machine from program start via
any sequence of processed events. -/
inductive Reachable : Config → Prop
  | init : Reachable initial_config
  | next : ∀ {c : Config} (e : Event), Reachable c → Reachable (step c e)

/-- The time string "07:30" (the spec's running example, TimeOfDay 450). -/
def s_0730 : List Char := "07:30".data

/-- The string "7:3" (length 3, too short). -/
def s_73 : List Char := "7:3".data

/-- The string "12;30" (five characters, wrong separator). -/
def s_12semi30 : List Char := "12;30".data

/-- The string "1a:30" (non-digit in the hour field). -/
def s_1a30 : List Char := "1a:30".data

/-- The string "25:00" (hour out of range). -/
def s_2500 : List Char := "25:00".data

/-- The string "12:60" (minute out of range). -/
def s_1260 : List Char := "12:60".data

/-- The string "ab;cd" (five characters, no separator: rejected). -/
def s_abcd : List Char := "ab;cd".data

/-- A stand-in argv[0] program name. -/
def s_prog : List Char := "prog".data

/-- The configuration after the startup TurnOn("07:30") succeeds: fsm state
on, start time 450, background task running (spawned once, never joined). It
equals step initial_config (Event.turn_on s_0730). -/
def demo_on_config : Config :=
  { st := CtrlState.on
    active_timeslot := TIMESLOT.LONG
    start_time_minutes := 450
    task_running := true
    light := false
    spawn_count := 1
    join_count := 0 }

theorem demo_on_config_reachable : Reachable demo_on_config := by
  have h : demo_on_config = step initial_config (Event.turn_on s_0730) := by decide
  rw [h]
  exact Reachable.next _ Reachable.init

/-- C1: for a non-wrapping window the claim says the output is on exactly on
[start, stop); the code's non-wrap branch only tests now < stop and ignores
start ≤ now. At the claim's own example (start=450, duration=120, stop=570,
so non-wrapping) the code turns the output ON at now=449, which lies outside
[450,570); the same happens on an actually reachable profile duration
(SHORT = 720 minutes, start=100, now=50). -/
theorem c1_nonwrap_on_before_start :
    (450 + 120) % (24 * 60) = 570 ∧ 450 ≤ 570 ∧
    iterate_task_decision 450 120 449 = true ∧ 449 < 450 ∧
    iterate_task 100 TIMESLOT.SHORT 50 = true ∧ 50 < 100 ∧
    duration_minutes TIMESLOT.SHORT = 720 ∧ (100 + 720) % (24 * 60) = 820 ∧
    100 ≤ 820 := by decide

/-- C2: for a wrapping window the claim says the output is on iff
now ≥ start or now < stop; the code's wrap branch only tests start < now and
ignores now < stop. At the claim's own example (start=1380, duration=120,
stop=60, wrapping) the code leaves the output OFF at now=30 (< stop) and even
at now=start=1380; the same happens with the reachable SHORT duration
(stop=660, now=30). -/
theorem c2_wrap_off_before_stop :
    (1380 + 120) % (24 * 60) = 60 ∧ 60 < 1380 ∧
    iterate_task_decision 1380 120 30 = false ∧ 30 < 60 ∧
    iterate_task_decision 1380 120 1380 = false ∧
    iterate_task 1380 TIMESLOT.SHORT 30 = false ∧
    (1380 + 720) % (24 * 60) = 660 ∧ 660 < 1380 ∧ 30 < 660 := by decide

/-- C3: the claim says a single edge on the start/stop input while the
controller is On yields exactly one TurnOff event. In the code the first
di_onoff::toggled() call (in the if-condition) consumes the edge and updates
last_value, so the second call in the else-if sees no change: the iteration
delivers NO event at all — the configuration is unchanged (while a processed
TurnOff would have changed it, e.g. moved st to off), only the watcher's
stored level advances. -/
theorem c3_edge_while_on_drops_turn_off :
    demo_on_config.st = CtrlState.on ∧
    loop_onoff s_0730 true { cfg := demo_on_config, onoff_last := false } =
      { cfg := demo_on_config, onoff_last := true } ∧
    (step demo_on_config Event.turn_off).st = CtrlState.off ∧
    step demo_on_config Event.turn_off ≠ demo_on_config := by decide

/-- C4 (counterexample): the claim says a Start-Time Validator failure is
never fatal to the process, including for the initial argv[1] string; but
main asserts sm.is(state<on>) right after the initial TurnOn, so an initial
argument the validator rejects aborts the process. -/
theorem c4_initial_invalid_time_aborts :
    (turn_on_guard s_abcd).isOk = false ∧
    startup [s_prog, s_abcd] = StartupResult.aborted := by decide

/-- C4 (amended): a validator failure on a TurnOn delivered to the machine is
local — the machine stays in Off, unchanged — but an initial argv[1] string
the validator rejects is fatal: the startup assertion that the machine is On
aborts the process. -/
theorem c4_validation_failure_local_except_startup :
    ∀ (a0 s : List Char) (c : Config),
      (turn_on_guard s).isOk = false →
      (c.st = CtrlState.off → step c (Event.turn_on s) = c) ∧
      startup [a0, s] = StartupResult.aborted := by
  intro a0 s c hg
  constructor
  · intro hoff
    rcases c with ⟨cst, ts, stm, tr, li, sc, jc⟩
    cases cst
    · simp [step, hg]
    · simp at hoff
  · simp [startup, step, initial_config, hg]

theorem c4_witness :
    (initial_config.st = CtrlState.off →
      step initial_config (Event.turn_on s_abcd) = initial_config) ∧
    startup [s_prog, s_abcd] = StartupResult.aborted :=
  c4_validation_failure_local_except_startup s_prog s_abcd initial_config (by decide)

/-- C5: a TurnOn whose string the validator rejects is atomic in Off: the
step relation leaves the whole configuration unchanged — same state, same
StartTime, same timeslot, task not started, counters untouched. -/
theorem c5_rejected_turn_on_is_noop :
    ∀ (s : List Char) (c : Config),
      c.st = CtrlState.off → (turn_on_guard s).isOk = false →
      step c (Event.turn_on s) = c := by
  intro s c hoff hg
  rcases c with ⟨cst, ts, stm, tr, li, sc, jc⟩
  cases cst
  · simp [step, hg]
  · simp at hoff

theorem c5_witness :
    step initial_config (Event.turn_on s_73) = initial_config :=
  c5_rejected_turn_on_is_noop s_73 initial_config (by decide) (by decide)

/-- C9: the input watcher's poll, as a function of the freshly read level and
the stored last level (initialized false), returns true iff the two differ
and stores the read level; hence a second poll of an unchanged level returns
false, a change reports exactly once until the level changes again, and the
first poll after construction reports an edge iff the level reads high. -/
theorem c9_input_watcher_edge_detection :
    ∀ (level last_v : Bool),
      (toggled level last_v).1 = decide (last_v ≠ level) ∧
      (toggled level last_v).2 = level ∧
      (toggled level (toggled level last_v).2).1 = false ∧
      (toggled level false).1 = level := by decide

/-- C10: a TurnOn delivered while the machine is On matches no row of the
transition table and is ignored: the step relation returns the configuration
unchanged — state stays On, the on-action does not run, StartTime, the
duration profile and the task flag are all untouched. -/
theorem c10_turn_on_while_on_ignored :
    ∀ (t : List Char) (c : Config), c.st = CtrlState.on →
      step c (Event.turn_on t) = c := by
  intro t c h
  rcases c with ⟨cst, ts, stm, tr, li, sc, jc⟩
  cases cst
  · simp at h
  · simp [step]

theorem c10_witness :
    step demo_on_config (Event.turn_on s_0730) = demo_on_config :=
  c10_turn_on_while_on_ignored s_0730 demo_on_config (by decide)

/-- Helper: the guard accepts any string of length 5 that contains a colon,
whose two fields are all digits with in-range values, and returns
hour*60+minute. -/
theorem turn_on_guard_ok_of (s : List Char) (hlen : s.length = 5)
    (hsep : s.contains ':' = true)
    (hn1 : is_number (substr s 0 2) = true) (hn2 : is_number (substr s 3 2) = true)
    (hh : stoi (substr s 0 2) ≤ 23) (hm : stoi (substr s 3 2) ≤ 59) :
    turn_on_guard s = Except.ok (stoi (substr s 0 2) * 60 + stoi (substr s 3 2)) := by
  simp only [turn_on_guard]
  rw [if_neg (by omega), if_neg (fun h => h.1 hsep), if_neg (by simp [hn1, hn2]),
    if_neg (by omega), if_neg (by omega)]

/-- C6: every valid HH:MM string — two digit characters, a colon, two digit
characters, with hour value at most 23 and minute value at most 59 — is
accepted by the validator with TimeOfDay hour*60+minute, and a TurnOn
carrying it moves the machine from Off to On recording exactly that
StartTime. -/
theorem c6_valid_hhmm_accepted :
    ∀ (h1 h2 m1 m2 : Char) (c : Config),
      digit_chars.contains h1 = true → digit_chars.contains h2 = true →
      digit_chars.contains m1 = true → digit_chars.contains m2 = true →
      stoi [h1, h2] ≤ 23 → stoi [m1, m2] ≤ 59 →
      c.st = CtrlState.off →
      turn_on_guard [h1, h2, ':', m1, m2] =
        Except.ok (stoi [h1, h2] * 60 + stoi [m1, m2]) ∧
      (step c (Event.turn_on [h1, h2, ':', m1, m2])).st = CtrlState.on ∧
      (step c (Event.turn_on [h1, h2, ':', m1, m2])).start_time_minutes =
        stoi [h1, h2] * 60 + stoi [m1, m2] := by
  intro h1 h2 m1 m2 c hd1 hd2 hd3 hd4 hh hm hoff
  have hd1m : h1 ∈ digit_chars := by simpa using hd1
  have hd2m : h2 ∈ digit_chars := by simpa using hd2
  have hd3m : m1 ∈ digit_chars := by simpa using hd3
  have hd4m : m2 ∈ digit_chars := by simpa using hd4
  have hs0 : substr [h1, h2, ':', m1, m2] 0 2 = [h1, h2] := rfl
  have hs3 : substr [h1, h2, ':', m1, m2] 3 2 = [m1, m2] := rfl
  have hg : turn_on_guard [h1, h2, ':', m1, m2] =
      Except.ok (stoi [h1, h2] * 60 + stoi [m1, m2]) := by
    have := turn_on_guard_ok_of [h1, h2, ':', m1, m2] rfl (by simp)
      (by rw [hs0]; simp [is_number, hd1m, hd2m]) (by rw [hs3]; simp [is_number, hd3m, hd4m])
      (by rw [hs0]; exact hh) (by rw [hs3]; exact hm)
    rw [this, hs0, hs3]
  refine ⟨hg, ?_, ?_⟩ <;>
  · rcases c with ⟨cst, ts, stm, tr, li, sc, jc⟩
    cases cst
    · simp [step, hg, on_action, hs0, hs3, Except.isOk, Except.toBool]
    · simp at hoff

theorem c6_witness :
    turn_on_guard ['0', '7', ':', '3', '0'] =
      Except.ok (stoi ['0', '7'] * 60 + stoi ['3', '0']) ∧
    (step initial_config (Event.turn_on ['0', '7', ':', '3', '0'])).st = CtrlState.on ∧
    (step initial_config (Event.turn_on ['0', '7', ':', '3', '0'])).start_time_minutes =
      stoi ['0', '7'] * 60 + stoi ['3', '0'] :=
  c6_valid_hhmm_accepted '0' '7' '3' '0' initial_config (by decide) (by decide)
    (by decide) (by decide) (by decide) (by decide) (by decide)

/-- C7: the validator applies its rules in order, first failure winning, and
reports the specific error of the first failing rule: TooShort exactly when
the length is below 5; else MissingSeparator exactly when the string contains
neither a colon nor a period; else NonNumeric exactly when the hour field
(characters 0..1) or the minute field (characters 3..4) contains a non-digit;
else HourOutOfRange exactly when the hour value is 24 or more; else
MinuteOutOfRange exactly when the minute value is 60 or more. -/
theorem c7_validator_error_order :
    ∀ s : List Char,
      (turn_on_guard s = Except.error ValidationError.TooShort ↔ s.length < 5) ∧
      (turn_on_guard s = Except.error ValidationError.MissingSeparator ↔
        (5 ≤ s.length ∧ s.contains ':' = false ∧ s.contains '.' = false)) ∧
      (turn_on_guard s = Except.error ValidationError.NonNumeric ↔
        (5 ≤ s.length ∧ (s.contains ':' = true ∨ s.contains '.' = true) ∧
         (is_number (substr s 0 2) = false ∨ is_number (substr s 3 2) = false))) ∧
      (turn_on_guard s = Except.error ValidationError.HourOutOfRange ↔
        (5 ≤ s.length ∧ (s.contains ':' = true ∨ s.contains '.' = true) ∧
         is_number (substr s 0 2) = true ∧ is_number (substr s 3 2) = true ∧
         24 ≤ stoi (substr s 0 2))) ∧
      (turn_on_guard s = Except.error ValidationError.MinuteOutOfRange ↔
        (5 ≤ s.length ∧ (s.contains ':' = true ∨ s.contains '.' = true) ∧
         is_number (substr s 0 2) = true ∧ is_number (substr s 3 2) = true ∧
         stoi (substr s 0 2) < 24 ∧ 60 ≤ stoi (substr s 3 2))) := by
  intro s
  simp only [turn_on_guard]
  split_ifs with a b cc d e <;>
    simp_all [not_and_or, Bool.not_eq_true, Nat.not_lt, Nat.not_le]
  · refine ⟨?_, fun _ h1 h2 => ?_, fun _ h1 h2 _ => ?_⟩
    · by_cases h : ':' ∈ s
      · exact Or.inl h
      · exact Or.inr (b h)
    · rcases cc with h | h
      · rw [h] at h1; exact Bool.noConfusion h1
      · rw [h] at h2; exact Bool.noConfusion h2
    · rcases cc with h | h
      · rw [h] at h1; exact Bool.noConfusion h1
      · rw [h] at h2; exact Bool.noConfusion h2
  · by_cases h : ':' ∈ s
    · exact Or.inl h
    · exact Or.inr (b h)
  · by_cases h : ':' ∈ s
    · exact Or.inl h
    · exact Or.inr (b h)

theorem c7_witness :
    turn_on_guard s_73 = Except.error ValidationError.TooShort ∧
    turn_on_guard s_12semi30 = Except.error ValidationError.MissingSeparator ∧
    turn_on_guard s_1a30 = Except.error ValidationError.NonNumeric ∧
    turn_on_guard s_2500 = Except.error ValidationError.HourOutOfRange ∧
    turn_on_guard s_1260 = Except.error ValidationError.MinuteOutOfRange :=
  ⟨(c7_validator_error_order s_73).1.mpr (by decide),
   (c7_validator_error_order s_12semi30).2.1.mpr (by decide),
   (c7_validator_error_order s_1a30).2.2.1.mpr (by decide),
   (c7_validator_error_order s_2500).2.2.2.1.mpr (by decide),
   (c7_validator_error_order s_1260).2.2.2.2.mpr (by decide)⟩

/-- Helper invariant, by induction over reachability: in every reachable
configuration the task flag holds exactly in state On, and the number of
spawned threads exceeds the number of joined ones exactly by the flag. -/
theorem reachable_task_flag_invariant :
    ∀ c : Config, Reachable c →
      c.task_running = decide (c.st = CtrlState.on) ∧
      c.spawn_count = c.join_count + (if c.st = CtrlState.on then 1 else 0) := by
  intro c h
  induction h with
  | init => decide
  | next e _ ih =>
    obtain ⟨ih1, ih2⟩ := ih
    rename_i c0 _
    rcases c0 with ⟨cst, ts, stm, tr, li, sc, jc⟩
    cases cst <;> cases e <;>
      simp_all [step, on_action, off_action, change_on_time_action, Except.isOk,
        Except.toBool] <;>
      split_ifs <;> simp_all

/-- C8: in every reachable configuration the background task's running flag
is true iff the controller is On, and the ghost spawn/join counters show the
thread is spawned exactly once per Off-to-On transition and joined exactly
once per On-to-Off transition, with never more than one live task (spawns
exceed joins by at most one, exactly matching the flag); moreover the
on-action's start is idempotent: with the flag already set it spawns
nothing. -/
theorem c8_background_task_lifecycle :
    ∀ c : Config, Reachable c →
      (c.task_running = true ↔ c.st = CtrlState.on) ∧
      c.spawn_count = c.join_count + (if c.st = CtrlState.on then 1 else 0) ∧
      (∀ t : List Char, c.task_running = true →
        (on_action t c).spawn_count = c.spawn_count ∧
        (on_action t c).task_running = true) ∧
      (∀ t : List Char, c.st = CtrlState.off → (turn_on_guard t).isOk = true →
        (step c (Event.turn_on t)).spawn_count = c.spawn_count + 1 ∧
        (step c (Event.turn_on t)).task_running = true ∧
        (step c (Event.turn_on t)).st = CtrlState.on) ∧
      (c.st = CtrlState.on →
        (step c Event.turn_off).join_count = c.join_count + 1 ∧
        (step c Event.turn_off).task_running = false ∧
        (step c Event.turn_off).st = CtrlState.off) := by
  intro c h
  obtain ⟨h1, h2⟩ := reachable_task_flag_invariant c h
  rcases c with ⟨cst, ts, stm, tr, li, sc, jc⟩
  cases cst <;>
    simp_all [step, on_action, off_action, Except.isOk, Except.toBool]

theorem c8_witness :
    ((step initial_config (Event.turn_on s_0730)).task_running = true ↔
      (step initial_config (Event.turn_on s_0730)).st = CtrlState.on) :=
  (c8_background_task_lifecycle _ (Reachable.next _ Reachable.init)).1

end LightController
